import Mathlib

/-!
Shallow embedding of tcframe's `TestCaseGenerator`
(`src/include/tcframe/generator/TestCaseGenerator.hpp`).

The external collaborators (Verifier, IOManipulator, OperatingSystem,
Evaluator, GeneratorLogger) are outside the repository fragment; they are
modelled as pure functions gathered in a `Collaborators` record. File
streams are modelled as a path-to-content association list, logging as an
event list, the external spec-variable store as a type parameter `σ`, and
C++ exceptions as explicit failure values threaded to the `generate`
boundary.
-/

namespace Tcframe

/-- Outcome of running an external process: success flag plus diagnostic
detail that is opaque to the core. -/
structure ExecutionResult where
  isSuccessful : Bool
  detail : String
  deriving DecidableEq

/-- Result of `Verifier::verifyConstraints`: validity flag plus diagnostic
detail that is opaque to the core. -/
structure ConstraintsVerificationResult where
  isValid : Bool
  detail : String
  deriving DecidableEq

/-- Modelled from the spec: a verdict status comparable against the
Accepted (`ac`) status; the `VerdictStatus` class itself is outside this
fragment, which only ever compares a status against `ac`. -/
inductive VerdictStatus where
  | ac
  | wa
  | tle
  | rte
  deriving DecidableEq

/-- A checker verdict, exposing its status. -/
structure Verdict where
  status : VerdictStatus
  deriving DecidableEq

/-- Result of `Evaluator::generate` (the reference-solution run). -/
structure GenerationResult where
  executionResult : ExecutionResult
  deriving DecidableEq

/-- Result of `Evaluator::score` (the checker run). -/
structure ScoringResult where
  verdict : Verdict
  executionResult : ExecutionResult
  deriving DecidableEq

/-- One call to a `GeneratorLogger` sink. -/
inductive LogEvent where
  | testCaseIntroduction (name : String)
  | testCaseFailedResult (description : String)
  | testCaseSuccessfulResult
  | constraintsVerificationFailure (result : ConstraintsVerificationResult)
  | executionResults (results : List (String × ExecutionResult))
  | sampleTestCaseNoOutputNeededFailure
  | sampleTestCaseCheckFailure
  | simpleFailure (message : String)
  deriving DecidableEq

/-- One invocation of the external `Evaluator`, recorded for observation. -/
inductive EvaluatorCall where
  | generate (inputFilename outputFilename : String)
  | score (inputFilename outputFilename : String)
  deriving DecidableEq

/-- A C++ exception crossing the pipeline: a `GenerationException` carrying
the log events its deferred callback emits when invoked, or a
`runtime_error` carrying a plain message. -/
inductive GenFailure where
  | generationException (callback : List LogEvent)
  | runtimeError (message : String)
  deriving DecidableEq

/-- Outcome of `modifyOutputForMultipleTestCases`: the remaining stream
after the cursor, a failed dereference of the absent steady-state output
prefix option, or the `runtime_error` raised on a mismatching byte. -/
inductive FramingResult where
  | ok (remaining : String)
  | absentSteadyFailure
  | mismatchFailure (message : String)
  deriving DecidableEq

/-- `TestCaseData` variants; `σ` is the external spec-variable store that
`OfficialTestCaseData`'s closure and the `IOManipulator` read and write. -/
inductive TestCaseData (σ : Type) where
  | sample (input : String) (output : Option String)
  | official (closure : σ → σ)

/-- A test case: name (used for filenames), display description, subtask
identifiers handed to the Verifier, and its data variant. -/
structure TestCase (σ : Type) where
  name : String
  description : String
  subtaskIds : List Int
  data : TestCaseData σ

/-- Generator run parameters. `multipleTestCasesCounter` is an `int*` in the
C++ code and only its presence is ever consulted, so it is modelled as a
presence flag. -/
structure GeneratorConfig where
  outputDir : String
  solutionCommand : String
  needsOutput : Bool
  multipleTestCasesCounter : Bool
  multipleTestCasesOutputPrefix : Option String
  multipleTestCasesFirstOutputPrefix : Option String

/-- The files visible through `OperatingSystem`: newest write first. -/
abbrev FileSystem : Type := List (String × String)

/-- Writing a file replaces any previous content at its path. -/
def FileSystem.write (fs : FileSystem) (path content : String) : FileSystem :=
  (path, content) :: fs

/-- Reading a file returns the most recently written content at its path. -/
def FileSystem.read : FileSystem → String → Option String
  | [], _ => none
  | (p, c) :: rest, path => if p = path then some c else FileSystem.read rest path

/-- Observable state threaded through one `generate` call. -/
structure SysState (σ : Type) where
  fs : FileSystem
  log : List LogEvent
  spec : σ
  evaluatorCalls : List EvaluatorCall

/-- The external collaborators, modelled as pure functions.
`evalGenerate` takes the solution command and the content of the input file
and yields the run result together with the bytes the run writes to the
output file; `evalScore` takes the contents of the input file, the output
file, and the scratch expected-output file, and yields the scoring
result. -/
structure Collaborators (σ : Type) where
  verifyConstraints : List Int → ConstraintsVerificationResult
  parseInput : String → σ → σ
  printInput : σ → String
  parseOutput : String → σ → σ
  evalGenerate : String → String → GenerationResult × String
  evalScore : String → String → String → ScoringResult

/-- Modelled from the spec: `Evaluator::EVALUATION_OUT_FILENAME`, the fixed
scratch evaluation-output path; the `Evaluator` header is outside this
fragment. The chosen literal keeps the properties the spec gives the path:
it is a single fixed name, so it holds no directory separator. -/
def EVALUATION_OUT_FILENAME : String := "_evaluation.out"

/-- Net effect of `applyInput` on the external spec store. -/
def appliedSpec (env : Collaborators σ) (d : TestCaseData σ) (sp : σ) : σ :=
  match d with
  | .sample input _ => env.parseInput input sp
  | .official closure => closure sp

/-- `applyInput` (lines 76-85): parse the literal sample input, or invoke
the official closure; both only touch the external spec store. -/
def applyInput (env : Collaborators σ) (testCase : TestCase σ) (s : SysState σ) : SysState σ :=
  { s with spec := appliedSpec env testCase.data s.spec }

/-- `verifyInput` (lines 87-92): ask the Verifier; on an invalid result,
throw a `GenerationException` whose callback logs the verification
failure. -/
def verifyInput (env : Collaborators σ) (testCase : TestCase σ) : Option GenFailure :=
  let result := env.verifyConstraints testCase.subtaskIds
  if result.isValid then none
  else some (.generationException [.constraintsVerificationFailure result])

/-- `modifyInputForMultipleTestCases` (lines 149-154), as the text it writes
to the input stream: the line `1` when a counter is configured, nothing
otherwise. -/
def modifyInputForMultipleTestCases (config : GeneratorConfig) : String :=
  if config.multipleTestCasesCounter then
    let testCaseId : Int := 1
    toString testCaseId ++ "\n"
  else ""

/-- `generateInput` (lines 94-105): open the input file for writing, write
the optional counter line, then the raw sample text or the serialized spec
store, and close the stream. -/
def generateInput (env : Collaborators σ) (testCase : TestCase σ)
    (inputFilename : String) (config : GeneratorConfig) (s : SysState σ) : SysState σ :=
  let body :=
    match testCase.data with
    | .sample input _ => input
    | .official _ => env.printInput s.spec
  { s with fs := s.fs.write inputFilename (modifyInputForMultipleTestCases config ++ body) }

/-- `getSampleOutputString` (lines 142-147). -/
def getSampleOutputString (testCase : TestCase σ) : Option String :=
  match testCase.data with
  | .sample _ output => output
  | .official _ => none

/-- `modifySampleOutputStringForMultipleTestCases` (lines 156-160). -/
def modifySampleOutputStringForMultipleTestCases (outputString : String)
    (config : GeneratorConfig) : String :=
  match config.multipleTestCasesCounter, config.multipleTestCasesFirstOutputPrefix with
  | true, some firstOutputPrefixValue => firstOutputPrefixValue ++ outputString
  | _, _ => outputString

/-- The peek/get loop of `modifyOutputForMultipleTestCases` (lines 166-172):
consume the expected characters off the front of the stream, failing on the
first mismatching byte or premature end of stream; on success return the
stream contents after the cursor. -/
def consumeExpected : List Char → List Char → Option (List Char)
  | [], out => some out
  | _ :: _, [] => none
  | p :: ps, c :: cs => if c = p then consumeExpected ps cs else none

/-- `modifyOutputForMultipleTestCases` (lines 162-174). The stream is the
output file's content; the `ok` value is what remains after the cursor.
The dereference of `multipleTestCasesOutputPrefix` on line 164 is not
guarded by a presence check; the repository's `optional` utility is outside
this fragment, so, modelled from the spec (every consumer of an
optional-valued config field is required to branch on presence), an absent
steady-state output prefix makes the step fail before any output byte is
examined. -/
def modifyOutputForMultipleTestCases (output : String) (config : GeneratorConfig) : FramingResult :=
  match config.multipleTestCasesCounter, config.multipleTestCasesFirstOutputPrefix with
  | true, some firstOutputPrefixValue =>
    match config.multipleTestCasesOutputPrefix with
    | none => .absentSteadyFailure
    | some steadyOutputPrefixValue =>
      match consumeExpected firstOutputPrefixValue.data output.data with
      | some rest => .ok (String.mk rest)
      | none => .mismatchFailure ("Output must start with \"" ++ steadyOutputPrefixValue ++ "\"")
  | _, _ => .ok output

/-- `checkSampleOutput` (lines 176-196): adjust a copy of the declared
sample output, write it to the fixed scratch path, invoke the scorer over
the input and output files, and throw a `GenerationException` when the
verdict is not Accepted. -/
def checkSampleOutput (env : Collaborators σ)
    (sampleOutputString inputFilename outputFilename : String)
    (config : GeneratorConfig) (s : SysState σ) : SysState σ × Option GenFailure :=
  let modifiedSampleOutputString :=
    modifySampleOutputStringForMultipleTestCases sampleOutputString config
  let s1 : SysState σ :=
    { s with fs := s.fs.write EVALUATION_OUT_FILENAME modifiedSampleOutputString }
  let scoringResult :=
    env.evalScore ((s1.fs.read inputFilename).getD "") ((s1.fs.read outputFilename).getD "")
      ((s1.fs.read EVALUATION_OUT_FILENAME).getD "")
  let s2 : SysState σ :=
    { s1 with evaluatorCalls :=
        s1.evaluatorCalls ++ [EvaluatorCall.score inputFilename outputFilename] }
  if scoringResult.verdict.status = VerdictStatus.ac then (s2, none)
  else
    (s2, some (.generationException
      [.sampleTestCaseCheckFailure,
       .executionResults [("scorer", scoringResult.executionResult)]]))

/-- Modelled from the spec: the absent-optional failure inside
`modifyOutputForMultipleTestCases` terminates at the `generate` boundary
like the other infrastructure failures (spec section 7: both failure
channels terminate at the boundary; no other exit path exists). -/
def absentSteadyMessage : String := "accessed the value of an absent optional"

/-- Lines 136-139 of `generateAndApplyOutput`: read the output file back,
validate the multi-case framing, and feed the remaining stream into the
IOManipulator's output parser. -/
def applyGeneratedOutput (env : Collaborators σ) (outputFilename : String)
    (config : GeneratorConfig) (s : SysState σ) : SysState σ × Option GenFailure :=
  let outputString := (s.fs.read outputFilename).getD ""
  match modifyOutputForMultipleTestCases outputString config with
  | .ok remaining => ({ s with spec := env.parseOutput remaining s.spec }, none)
  | .mismatchFailure message => (s, some (.runtimeError message))
  | .absentSteadyFailure => (s, some (.runtimeError absentSteadyMessage))

/-- `generateAndApplyOutput` (lines 107-140). The modelled Evaluator writes
its produced bytes to the output file as part of its run. -/
def generateAndApplyOutput (env : Collaborators σ) (testCase : TestCase σ)
    (inputFilename outputFilename : String) (config : GeneratorConfig)
    (s : SysState σ) : SysState σ × Option GenFailure :=
  let maybeSampleOutputString := getSampleOutputString testCase
  if config.needsOutput = false then
    match maybeSampleOutputString with
    | some _ => (s, some (.generationException [.sampleTestCaseNoOutputNeededFailure]))
    | none => (s, none)
  else
    let generated := env.evalGenerate config.solutionCommand ((s.fs.read inputFilename).getD "")
    let s1 : SysState σ :=
      { s with fs := s.fs.write outputFilename generated.2,
               evaluatorCalls :=
                 s.evaluatorCalls ++ [EvaluatorCall.generate inputFilename outputFilename] }
    if generated.1.executionResult.isSuccessful = false then
      (s1, some (.generationException
        [.executionResults [("solution", generated.1.executionResult)]]))
    else
      match maybeSampleOutputString with
      | some sampleOutputString =>
        match checkSampleOutput env sampleOutputString inputFilename outputFilename config s1 with
        | (s2, some e) => (s2, some e)
        | (s2, none) => applyGeneratedOutput env outputFilename config s2
      | none => applyGeneratedOutput env outputFilename config s1

/-- The body of the `try` block of `generate` (lines 56-61), returning the
state at the point an exception is thrown, if one is. -/
def runPipeline (env : Collaborators σ) (testCase : TestCase σ)
    (inputFilename outputFilename : String) (config : GeneratorConfig)
    (s : SysState σ) : SysState σ × Option GenFailure :=
  let s1 := applyInput env testCase s
  match verifyInput env testCase with
  | some e => (s1, some e)
  | none =>
    let s2 := generateInput env testCase inputFilename config s1
    generateAndApplyOutput env testCase inputFilename outputFilename config s2

/-- The input filename computed on line 53. -/
def inputFilenameOf (config : GeneratorConfig) (testCase : TestCase σ) : String :=
  config.outputDir ++ "/" ++ testCase.name ++ ".in"

/-- The output filename computed on line 54. -/
def outputFilenameOf (config : GeneratorConfig) (testCase : TestCase σ) : String :=
  config.outputDir ++ "/" ++ testCase.name ++ ".out"

/-- `generate` (lines 50-73): log the intro, run the pipeline, and on a
`GenerationException` log the failed result and then invoke the deferred
callback once; on a `runtime_error` log the failed result and the plain
message; on success log the successful result. -/
def generate (env : Collaborators σ) (testCase : TestCase σ)
    (config : GeneratorConfig) (s : SysState σ) : Bool × SysState σ :=
  let s0 : SysState σ :=
    { s with log := s.log ++ [LogEvent.testCaseIntroduction testCase.name] }
  match runPipeline env testCase (inputFilenameOf config testCase)
      (outputFilenameOf config testCase) config s0 with
  | (s1, some (.generationException callback)) =>
    (false, { s1 with log :=
        s1.log ++ [LogEvent.testCaseFailedResult testCase.description] ++ callback })
  | (s1, some (.runtimeError message)) =>
    (false, { s1 with log :=
        s1.log ++ [LogEvent.testCaseFailedResult testCase.description,
                   LogEvent.simpleFailure message] })
  | (s1, none) =>
    (true, { s1 with log := s1.log ++ [LogEvent.testCaseSuccessfulResult] })

/-- The log events the `generate` boundary appends after the intro, as a
function of the pipeline's outcome. -/
def boundaryTail (description : String) (f : Option GenFailure) : List LogEvent :=
  match f with
  | none => [LogEvent.testCaseSuccessfulResult]
  | some (.generationException callback) =>
      LogEvent.testCaseFailedResult description :: callback
  | some (.runtimeError message) =>
      [LogEvent.testCaseFailedResult description, LogEvent.simpleFailure message]

/-- The event predicates used to state the log discipline of `generate`. -/
def isIntroEvent : LogEvent → Bool
  | .testCaseIntroduction _ => true
  | _ => false

def isFailedEvent : LogEvent → Bool
  | .testCaseFailedResult _ => true
  | _ => false

def isSuccessEvent : LogEvent → Bool
  | .testCaseSuccessfulResult => true
  | _ => false

/-! ### Closed fixtures used to evaluate the theorems on concrete inputs -/

/-- A fixed generator configuration for closed evaluations. -/
def witnessConfig : GeneratorConfig :=
  { outputDir := "tc", solutionCommand := "./solution", needsOutput := true,
    multipleTestCasesCounter := false, multipleTestCasesOutputPrefix := none,
    multipleTestCasesFirstOutputPrefix := none }

/-- `witnessConfig` with output generation turned off. -/
def noOutputConfig : GeneratorConfig := { witnessConfig with needsOutput := false }

/-- `witnessConfig` with full multi-case framing configured. -/
def framedConfig : GeneratorConfig :=
  { witnessConfig with
    multipleTestCasesCounter := true,
    multipleTestCasesOutputPrefix := some "Case #",
    multipleTestCasesFirstOutputPrefix := some "First #" }

/-- `framedConfig` without the steady-state output prefix. -/
def absentSteadyConfig : GeneratorConfig :=
  { framedConfig with multipleTestCasesOutputPrefix := none }

/-- An initial state with no files, no log, and no recorded calls. -/
def witnessState : SysState Nat := { fs := [], log := [], spec := 0, evaluatorCalls := [] }

/-- A sample test case declaring an expected output. -/
def sampleCase : TestCase Nat :=
  { name := "sample_1", description := "sample 1", subtaskIds := [],
    data := TestCaseData.sample "3\n" (some "7\n") }

/-- An official test case with a constant generation closure. -/
def officialCase : TestCase Nat :=
  { name := "1_1", description := "official 1", subtaskIds := [1],
    data := TestCaseData.official (fun _ => 3) }

/-- Collaborators whose Verifier accepts, whose solution run succeeds
writing `"6\n"`, and whose checker always accepts. -/
def acceptingEnv : Collaborators Nat :=
  { verifyConstraints := fun _ => { isValid := true, detail := "" },
    parseInput := fun _ _ => 3,
    printInput := fun n => toString n ++ "\n",
    parseOutput := fun _ n => n,
    evalGenerate := fun _ _ =>
      ({ executionResult := { isSuccessful := true, detail := "" } }, "6\n"),
    evalScore := fun _ _ _ =>
      { verdict := { status := VerdictStatus.ac },
        executionResult := { isSuccessful := true, detail := "" } } }

/-- `acceptingEnv` with a checker that always rejects. -/
def rejectingScoreEnv : Collaborators Nat :=
  { acceptingEnv with evalScore := fun _ _ _ =>
      { verdict := { status := VerdictStatus.wa },
        executionResult := { isSuccessful := true, detail := "scorer detail" } } }

/-- `acceptingEnv` with a Verifier that always reports invalid constraints. -/
def invalidVerifyEnv : Collaborators Nat :=
  { acceptingEnv with verifyConstraints := fun _ => { isValid := false, detail := "violated" } }

/-! ### Basic facts about the modelled file system and file paths -/

theorem FileSystem.read_write (fs : FileSystem) (p c q : String) :
    (fs.write p c).read q = if p = q then some c else fs.read q := rfl

theorem FileSystem.read_cons (p c : String) (fs : FileSystem) (q : String) :
    FileSystem.read ((p, c) :: fs) q = if p = q then some c else fs.read q := rfl

theorem FileSystem.read_write_self (fs : FileSystem) (p c : String) :
    (fs.write p c).read p = some c := by
  rw [FileSystem.read_write, if_pos rfl]

theorem FileSystem.read_write_ne (fs : FileSystem) (p c q : String) (h : p ≠ q) :
    (fs.write p c).read q = fs.read q := by
  rw [FileSystem.read_write, if_neg h]

theorem slash_mem_data (dir name suffix : String) :
    '/' ∈ (dir ++ "/" ++ name ++ suffix).data := by
  have hd : ("/" : String).data = ['/'] := rfl
  simp [String.data_append, hd]

/-- A generated file path, which holds a directory separator, is never the
fixed scratch evaluation-output path, which holds none. -/
theorem path_ne_eval (dir name suffix : String) :
    dir ++ "/" ++ name ++ suffix ≠ EVALUATION_OUT_FILENAME := by
  intro h
  have hmem := slash_mem_data dir name suffix
  rw [h] at hmem
  exact absurd hmem (by decide)

/-- The `.in` and `.out` paths of one test case differ. -/
theorem in_path_ne_out_path (dir name : String) :
    dir ++ "/" ++ name ++ ".in" ≠ dir ++ "/" ++ name ++ ".out" := by
  intro h
  have hlen := congrArg String.length h
  have h3 : (".in" : String).length = 3 := rfl
  have h4 : (".out" : String).length = 4 := rfl
  simp only [String.length_append, h3, h4] at hlen
  omega

theorem inputFilenameOf_ne_outputFilenameOf (config : GeneratorConfig) (testCase : TestCase σ) :
    inputFilenameOf config testCase ≠ outputFilenameOf config testCase :=
  in_path_ne_out_path config.outputDir testCase.name

theorem inputFilenameOf_ne_eval (config : GeneratorConfig) (testCase : TestCase σ) :
    inputFilenameOf config testCase ≠ EVALUATION_OUT_FILENAME :=
  path_ne_eval config.outputDir testCase.name ".in"

theorem outputFilenameOf_ne_eval (config : GeneratorConfig) (testCase : TestCase σ) :
    outputFilenameOf config testCase ≠ EVALUATION_OUT_FILENAME :=
  path_ne_eval config.outputDir testCase.name ".out"

/-! ### State-preservation facts about the pipeline steps -/

theorem applyInput_fs (env : Collaborators σ) (testCase : TestCase σ) (s : SysState σ) :
    (applyInput env testCase s).fs = s.fs := rfl

theorem applyInput_log (env : Collaborators σ) (testCase : TestCase σ) (s : SysState σ) :
    (applyInput env testCase s).log = s.log := rfl

theorem applyInput_evaluatorCalls (env : Collaborators σ) (testCase : TestCase σ) (s : SysState σ) :
    (applyInput env testCase s).evaluatorCalls = s.evaluatorCalls := rfl

theorem generateInput_log (env : Collaborators σ) (testCase : TestCase σ)
    (inputFilename : String) (config : GeneratorConfig) (s : SysState σ) :
    (generateInput env testCase inputFilename config s).log = s.log := rfl

theorem checkSampleOutput_log (env : Collaborators σ)
    (sampleOutputString inputFilename outputFilename : String)
    (config : GeneratorConfig) (s : SysState σ) :
    (checkSampleOutput env sampleOutputString inputFilename outputFilename config s).1.log
      = s.log := by
  simp only [checkSampleOutput]
  split <;> rfl

theorem applyGeneratedOutput_log (env : Collaborators σ) (outputFilename : String)
    (config : GeneratorConfig) (s : SysState σ) :
    (applyGeneratedOutput env outputFilename config s).1.log = s.log := by
  simp only [applyGeneratedOutput]
  split <;> rfl

theorem generateAndApplyOutput_log (env : Collaborators σ) (testCase : TestCase σ)
    (inputFilename outputFilename : String) (config : GeneratorConfig) (s : SysState σ) :
    (generateAndApplyOutput env testCase inputFilename outputFilename config s).1.log
      = s.log := by
  simp only [generateAndApplyOutput]
  split
  · split <;> rfl
  · split
    · rfl
    · split
      · rename_i sampleOutputString _
        split
        · rename_i s2 e hchk
          have h1 := congrArg (fun r : SysState σ × Option GenFailure => r.1.log) hchk
          simp only [checkSampleOutput_log] at h1
          exact h1.symm
        · rename_i s2 hchk
          have h1 := congrArg (fun r : SysState σ × Option GenFailure => r.1.log) hchk
          simp only [checkSampleOutput_log] at h1
          rw [applyGeneratedOutput_log]
          exact h1.symm
      · rw [applyGeneratedOutput_log]

theorem runPipeline_log (env : Collaborators σ) (testCase : TestCase σ)
    (inputFilename outputFilename : String) (config : GeneratorConfig) (s : SysState σ) :
    (runPipeline env testCase inputFilename outputFilename config s).1.log = s.log := by
  simp only [runPipeline]
  split
  · rfl
  · rw [generateAndApplyOutput_log, generateInput_log, applyInput_log]

theorem checkSampleOutput_fs_read {σ : Type} {env : Collaborators σ}
    {sampleOutputString inputFilename outputFilename : String} {config : GeneratorConfig}
    {s : SysState σ} {q : String} (heval : q ≠ EVALUATION_OUT_FILENAME) :
    (checkSampleOutput env sampleOutputString inputFilename outputFilename config s).1.fs.read q
      = s.fs.read q := by
  simp only [checkSampleOutput]
  split <;> exact FileSystem.read_write_ne _ _ _ _ (Ne.symm heval)

theorem applyGeneratedOutput_fs (env : Collaborators σ) (outputFilename : String)
    (config : GeneratorConfig) (s : SysState σ) :
    (applyGeneratedOutput env outputFilename config s).1.fs = s.fs := by
  simp only [applyGeneratedOutput]
  split <;> rfl

/-- Past `generateInput`, the pipeline only ever writes the output file and
the scratch evaluation-output file: every other path keeps its content. -/
theorem generateAndApplyOutput_fs_read {σ : Type} {env : Collaborators σ}
    {testCase : TestCase σ} {inputFilename outputFilename : String}
    {config : GeneratorConfig} {s : SysState σ} {q : String}
    (hout : q ≠ outputFilename) (heval : q ≠ EVALUATION_OUT_FILENAME) :
    (generateAndApplyOutput env testCase inputFilename outputFilename config s).1.fs.read q
      = s.fs.read q := by
  simp only [generateAndApplyOutput]
  split
  · split <;> rfl
  · split
    · exact FileSystem.read_write_ne _ _ _ _ (Ne.symm hout)
    · split
      · split
        · rename_i s2 e hchk
          have h1 := congrArg (fun r : SysState σ × Option GenFailure => r.1.fs.read q) hchk
          dsimp only at h1
          rw [checkSampleOutput_fs_read heval] at h1
          rw [← h1]
          exact FileSystem.read_write_ne _ _ _ _ (Ne.symm hout)
        · rename_i s2 hchk
          have h1 := congrArg (fun r : SysState σ × Option GenFailure => r.1.fs.read q) hchk
          dsimp only at h1
          rw [checkSampleOutput_fs_read heval] at h1
          rw [congrArg (fun fs : FileSystem => fs.read q) (applyGeneratedOutput_fs env outputFilename config s2)]
          rw [← h1]
          exact FileSystem.read_write_ne _ _ _ _ (Ne.symm hout)
      · rw [congrArg (fun fs : FileSystem => fs.read q) (applyGeneratedOutput_fs env outputFilename config _)]
        exact FileSystem.read_write_ne _ _ _ _ (Ne.symm hout)

/-- The plain `runtime_error` channel is fed only by the framing validation:
whatever failure `applyGeneratedOutput` raises is a `runtimeError`. -/
theorem applyGeneratedOutput_failure (env : Collaborators σ) (outputFilename : String)
    (config : GeneratorConfig) (s : SysState σ) (f : GenFailure)
    (h : (applyGeneratedOutput env outputFilename config s).2 = some f) :
    ∃ m, f = GenFailure.runtimeError m := by
  simp only [applyGeneratedOutput] at h
  split at h
  · exact absurd h (by simp)
  · exact ⟨_, (Option.some_injective _ h).symm⟩
  · exact ⟨_, (Option.some_injective _ h).symm⟩

theorem checkSampleOutput_exception_events (env : Collaborators σ)
    (sampleOutputString inputFilename outputFilename : String) (config : GeneratorConfig)
    (s : SysState σ) (cb : List LogEvent)
    (h : (checkSampleOutput env sampleOutputString inputFilename outputFilename config s).2
        = some (GenFailure.generationException cb)) :
    cb.countP isIntroEvent = 0 ∧ cb.countP isFailedEvent = 0 ∧ cb.countP isSuccessEvent = 0 := by
  simp only [checkSampleOutput] at h
  split at h
  · exact absurd h (by simp)
  · have hcb := (Option.some_injective _ h)
    have hcb2 : cb = [LogEvent.sampleTestCaseCheckFailure,
        LogEvent.executionResults [("scorer", _)]] := (GenFailure.generationException.injEq _ _).mp hcb.symm
    subst hcb2
    refine ⟨?_, ?_, ?_⟩ <;> rfl

/-- Every deferred callback produced inside the pipeline emits only
detail events: no intro, no failed-result, no successful-result event. -/
theorem generateAndApplyOutput_exception_events (env : Collaborators σ) (testCase : TestCase σ)
    (inputFilename outputFilename : String) (config : GeneratorConfig) (s : SysState σ)
    (cb : List LogEvent)
    (h : (generateAndApplyOutput env testCase inputFilename outputFilename config s).2
        = some (GenFailure.generationException cb)) :
    cb.countP isIntroEvent = 0 ∧ cb.countP isFailedEvent = 0 ∧ cb.countP isSuccessEvent = 0 := by
  simp only [generateAndApplyOutput] at h
  split at h
  · split at h
    · have hcb : GenFailure.generationException [LogEvent.sampleTestCaseNoOutputNeededFailure]
          = GenFailure.generationException cb := Option.some_injective _ h
      have hcb2 := (GenFailure.generationException.injEq _ _).mp hcb
      subst hcb2
      refine ⟨?_, ?_, ?_⟩ <;> rfl
    · exact absurd h (by simp)
  · split at h
    · have hcb : GenFailure.generationException [LogEvent.executionResults [("solution", _)]]
          = GenFailure.generationException cb := Option.some_injective _ h
      have hcb2 := (GenFailure.generationException.injEq _ _).mp hcb
      subst hcb2
      refine ⟨?_, ?_, ?_⟩ <;> rfl
    · split at h
      · rename_i sampleOutputString hso
        split at h
        · rename_i s2 e hchk
          have he : e = GenFailure.generationException cb := Option.some_injective _ h
          subst he
          have h3 := congrArg (fun r : SysState σ × Option GenFailure => r.2) hchk
          dsimp only at h3
          exact checkSampleOutput_exception_events env sampleOutputString inputFilename
            outputFilename config _ cb h3
        · obtain ⟨m, hm⟩ := applyGeneratedOutput_failure env outputFilename config _ _ h
          exact absurd hm (by simp)
      · obtain ⟨m, hm⟩ := applyGeneratedOutput_failure env outputFilename config _ _ h
        exact absurd hm (by simp)

theorem runPipeline_exception_events (env : Collaborators σ) (testCase : TestCase σ)
    (inputFilename outputFilename : String) (config : GeneratorConfig) (s : SysState σ)
    (cb : List LogEvent)
    (h : (runPipeline env testCase inputFilename outputFilename config s).2
        = some (GenFailure.generationException cb)) :
    cb.countP isIntroEvent = 0 ∧ cb.countP isFailedEvent = 0 ∧ cb.countP isSuccessEvent = 0 := by
  simp only [runPipeline] at h
  split at h
  · rename_i e heq
    simp only [verifyInput] at heq
    split at heq
    · exact absurd heq (by simp)
    · have he := Option.some_injective _ heq
      have h2 : e = GenFailure.generationException cb := Option.some_injective _ h
      rw [← he] at h2
      have hcb2 := (GenFailure.generationException.injEq _ _).mp h2
      rw [← hcb2]
      refine ⟨?_, ?_, ?_⟩ <;> rfl
  · exact generateAndApplyOutput_exception_events env testCase inputFilename outputFilename
      config _ cb h

/-! ### Scenario characterizations shared by the claim theorems -/

/-- When the Verifier reports invalid constraints, `generate` only appends
the intro, failed-result, and verification-failure log events: the file
system and the evaluator-call trace are untouched. -/
theorem generate_invalid {σ : Type} {env : Collaborators σ} {testCase : TestCase σ}
    {config : GeneratorConfig} {s : SysState σ}
    (h : (env.verifyConstraints testCase.subtaskIds).isValid = false) :
    generate env testCase config s =
      (false,
       { s with
         log := s.log ++ [LogEvent.testCaseIntroduction testCase.name,
                LogEvent.testCaseFailedResult testCase.description,
                LogEvent.constraintsVerificationFailure
                  (env.verifyConstraints testCase.subtaskIds)],
         spec := appliedSpec env testCase.data s.spec }) := by
  simp [generate, runPipeline, verifyInput, applyInput, h]

/-- With valid constraints, a declared sample output, and `needsOutput`
off, `generate` writes the input file, then fails with the
no-output-needed signal, never touching the Evaluator. -/
theorem generate_noOutputContradiction {σ : Type} {env : Collaborators σ}
    {testCase : TestCase σ} {config : GeneratorConfig} {s : SysState σ}
    {inp sout : String}
    (hdata : testCase.data = TestCaseData.sample inp (some sout))
    (hneeds : config.needsOutput = false)
    (hvalid : (env.verifyConstraints testCase.subtaskIds).isValid = true) :
    generate env testCase config s =
      (false,
       { s with
         fs := s.fs.write (inputFilenameOf config testCase)
           (modifyInputForMultipleTestCases config ++ inp),
         log := s.log ++ [LogEvent.testCaseIntroduction testCase.name,
                LogEvent.testCaseFailedResult testCase.description,
                LogEvent.sampleTestCaseNoOutputNeededFailure],
         spec := env.parseInput inp s.spec }) := by
  simp [generate, runPipeline, verifyInput, applyInput, appliedSpec, generateInput,
    generateAndApplyOutput, getSampleOutputString, hdata, hneeds, hvalid]

/-! ### The claims -/

/-- C1: for every test case and config, if the Verifier reports the
constraints invalid for the case's subtaskIds, then `generate` returns
failure and no file is created: constraint verification runs strictly
after `applyInput` and strictly before `generateInput` opens any stream,
so the file system is left exactly as it was — in particular neither the
`.in` file nor the `.out` file of the case exists unless it already did,
and the Evaluator is never invoked. -/
theorem c1_invalid_constraints_no_files (env : Collaborators σ) (testCase : TestCase σ)
    (config : GeneratorConfig) (s : SysState σ)
    (h : (env.verifyConstraints testCase.subtaskIds).isValid = false) :
    (generate env testCase config s).1 = false
    ∧ (generate env testCase config s).2.fs = s.fs
    ∧ (generate env testCase config s).2.evaluatorCalls = s.evaluatorCalls
    ∧ (generate env testCase config s).2.fs.read (inputFilenameOf config testCase)
        = s.fs.read (inputFilenameOf config testCase)
    ∧ (generate env testCase config s).2.fs.read (outputFilenameOf config testCase)
        = s.fs.read (outputFilenameOf config testCase) := by
  rw [generate_invalid h]
  exact ⟨rfl, rfl, rfl, rfl, rfl⟩

/-- Closed instance of C1: the always-invalid Verifier makes `generate`
fail on `sampleCase` and leaves the empty file system empty. -/
theorem c1_witness :
    (invalidVerifyEnv.verifyConstraints sampleCase.subtaskIds).isValid = false
    ∧ (generate invalidVerifyEnv sampleCase witnessConfig witnessState).1 = false
    ∧ (generate invalidVerifyEnv sampleCase witnessConfig witnessState).2.fs = witnessState.fs
    ∧ (generate invalidVerifyEnv sampleCase witnessConfig witnessState).2.fs.read
        (inputFilenameOf witnessConfig sampleCase) = none := by
  have h := c1_invalid_constraints_no_files invalidVerifyEnv sampleCase witnessConfig
    witnessState rfl
  exact ⟨rfl, h.1, h.2.1, h.2.2.2.1⟩

/-- C2: for every Sample test case declaring an expected output, if
`needsOutput` is off then `generate` returns failure, no output file and no
scratch file is created, and the Evaluator is never invoked; when the
constraints verify, the failure signal logs the no-output-needed mismatch.
Conversely, with `needsOutput` off and no declared sample output, the
output-generation step returns success with no further action. -/
theorem c2_sample_output_needs_output (env : Collaborators σ) (testCase : TestCase σ)
    (config : GeneratorConfig) (s : SysState σ) (inp sout : String)
    (hdata : testCase.data = TestCaseData.sample inp (some sout))
    (hneeds : config.needsOutput = false) :
    (generate env testCase config s).1 = false
    ∧ (generate env testCase config s).2.fs.read (outputFilenameOf config testCase)
        = s.fs.read (outputFilenameOf config testCase)
    ∧ (generate env testCase config s).2.fs.read EVALUATION_OUT_FILENAME
        = s.fs.read EVALUATION_OUT_FILENAME
    ∧ (generate env testCase config s).2.evaluatorCalls = s.evaluatorCalls
    ∧ ((env.verifyConstraints testCase.subtaskIds).isValid = true →
        (generate env testCase config s).2.log
          = s.log ++ [LogEvent.testCaseIntroduction testCase.name,
              LogEvent.testCaseFailedResult testCase.description,
              LogEvent.sampleTestCaseNoOutputNeededFailure])
    ∧ (∀ (testCase2 : TestCase σ) (iF oF : String) (s2 : SysState σ),
        getSampleOutputString testCase2 = none →
        generateAndApplyOutput env testCase2 iF oF config s2 = (s2, none)) := by
  have partB : ∀ (testCase2 : TestCase σ) (iF oF : String) (s2 : SysState σ),
      getSampleOutputString testCase2 = none →
      generateAndApplyOutput env testCase2 iF oF config s2 = (s2, none) := by
    intro testCase2 iF oF s2 hn
    simp [generateAndApplyOutput, hneeds, hn]
  by_cases hv : (env.verifyConstraints testCase.subtaskIds).isValid = true
  · rw [generate_noOutputContradiction hdata hneeds hv]
    refine ⟨rfl, ?_, ?_, rfl, fun _ => rfl, partB⟩
    · exact FileSystem.read_write_ne _ _ _ _
        (inputFilenameOf_ne_outputFilenameOf config testCase)
    · exact FileSystem.read_write_ne _ _ _ _ (inputFilenameOf_ne_eval config testCase)
  · have hv' : (env.verifyConstraints testCase.subtaskIds).isValid = false := by
      simpa using hv
    rw [generate_invalid hv']
    exact ⟨rfl, rfl, rfl, rfl, fun ht => absurd ht hv, partB⟩

/-- Closed instance of C2: declaring `"7\n"` as sample output with
`needsOutput` off makes `generate` fail without creating an output file or
invoking the Evaluator. -/
theorem c2_witness :
    (generate acceptingEnv sampleCase noOutputConfig witnessState).1 = false
    ∧ (generate acceptingEnv sampleCase noOutputConfig witnessState).2.fs.read
        (outputFilenameOf noOutputConfig sampleCase) = none
    ∧ (generate acceptingEnv sampleCase noOutputConfig witnessState).2.evaluatorCalls = [] := by
  have h := c2_sample_output_needs_output acceptingEnv sampleCase noOutputConfig
    witnessState "3\n" "7\n" rfl rfl
  exact ⟨h.1, h.2.1, h.2.2.2.1⟩

/-- The byte-consuming loop succeeds exactly on streams that start with the
expected characters, and then leaves precisely the rest of the stream. -/
theorem consumeExpected_some_iff (ps cs rest : List Char) :
    consumeExpected ps cs = some rest ↔ cs = ps ++ rest := by
  induction ps generalizing cs with
  | nil => simp [consumeExpected, eq_comm]
  | cons p ps ih =>
    cases cs with
    | nil => simp [consumeExpected]
    | cons c cs' =>
      by_cases hc : c = p
      · subst hc
        simp [consumeExpected, ih]
      · simp [consumeExpected, hc]

/-- C10: the multi-case output framing validation is total only when
`multipleTestCasesOutputPrefix` is present whenever both the counter and
the first-output-prefix are configured: the step dereferences the
steady-state prefix option before examining any output byte, so with an
absent steady-state prefix it fails on every output — even one whose
leading bytes match the first-output-prefix. -/
theorem c10_absent_steady_output_prefix (config : GeneratorConfig) (fp : String)
    (hc : config.multipleTestCasesCounter = true)
    (hf : config.multipleTestCasesFirstOutputPrefix = some fp)
    (hs : config.multipleTestCasesOutputPrefix = none) :
    ∀ output : String,
      modifyOutputForMultipleTestCases output config = FramingResult.absentSteadyFailure := by
  intro output
  simp [modifyOutputForMultipleTestCases, hc, hf, hs]

/-- Closed instance of C10: with a counter and first-output-prefix but no
steady-state prefix, the step fails even on an output starting with the
first-output-prefix. -/
theorem c10_witness :
    absentSteadyConfig.multipleTestCasesCounter = true
    ∧ absentSteadyConfig.multipleTestCasesFirstOutputPrefix = some "First #"
    ∧ absentSteadyConfig.multipleTestCasesOutputPrefix = none
    ∧ ("First #42\n" : String).data = ("First #" : String).data ++ ("42\n" : String).data
    ∧ modifyOutputForMultipleTestCases "First #42\n" absentSteadyConfig
        = FramingResult.absentSteadyFailure :=
  ⟨rfl, rfl, rfl, by decide,
   c10_absent_steady_output_prefix absentSteadyConfig "First #" rfl rfl rfl "First #42\n"⟩

/-- C3: with a counter and a first-output-prefix configured (and the
steady-state prefix present), the framing validation consumes exactly the
first-output-prefix bytes off the stream: it succeeds precisely on outputs
starting with that prefix, leaving the cursor right after it; on a
mismatching byte or premature end it fails with a message naming the
steady-state prefix; without both options it consumes nothing; and a
mismatch surfaces at the pipeline step as a plain `runtimeError`, not as a
deferred-callback `generationException`. -/
theorem c3_output_framing_validation (σ : Type) (config : GeneratorConfig) (fp sp : String)
    (hc : config.multipleTestCasesCounter = true)
    (hf : config.multipleTestCasesFirstOutputPrefix = some fp)
    (hp : config.multipleTestCasesOutputPrefix = some sp) :
    (∀ output rest : String,
        modifyOutputForMultipleTestCases output config = FramingResult.ok rest →
        output.data = fp.data ++ rest.data)
    ∧ (∀ (output : String) (rest : List Char), output.data = fp.data ++ rest →
        modifyOutputForMultipleTestCases output config = FramingResult.ok (String.mk rest))
    ∧ (∀ output : String, (¬ ∃ rest, output.data = fp.data ++ rest) →
        modifyOutputForMultipleTestCases output config
          = FramingResult.mismatchFailure ("Output must start with \"" ++ sp ++ "\""))
    ∧ (∀ (config2 : GeneratorConfig) (output : String),
        config2.multipleTestCasesCounter = false
          ∨ config2.multipleTestCasesFirstOutputPrefix = none →
        modifyOutputForMultipleTestCases output config2 = FramingResult.ok output)
    ∧ (∀ (env : Collaborators σ) (outputFilename message : String) (s : SysState σ),
        modifyOutputForMultipleTestCases ((s.fs.read outputFilename).getD "") config
          = FramingResult.mismatchFailure message →
        applyGeneratedOutput env outputFilename config s
          = (s, some (GenFailure.runtimeError message))) := by
  refine ⟨?_, ?_, ?_, ?_, ?_⟩
  · intro output rest h
    cases hcons : consumeExpected fp.data output.data with
    | none => simp [modifyOutputForMultipleTestCases, hc, hf, hp, hcons] at h
    | some l =>
      simp [modifyOutputForMultipleTestCases, hc, hf, hp, hcons] at h
      rw [← h]
      exact (consumeExpected_some_iff _ _ _).mp hcons
  · intro output rest h
    have hcons := (consumeExpected_some_iff fp.data output.data rest).mpr h
    simp [modifyOutputForMultipleTestCases, hc, hf, hp, hcons]
  · intro output hno
    cases hcons : consumeExpected fp.data output.data with
    | some l => exact absurd ⟨l, (consumeExpected_some_iff _ _ _).mp hcons⟩ hno
    | none => simp [modifyOutputForMultipleTestCases, hc, hf, hp, hcons]
  · intro config2 output hor
    cases hcb : config2.multipleTestCasesCounter with
    | false => simp [modifyOutputForMultipleTestCases, hcb]
    | true =>
      rcases hor with h | h
      · rw [hcb] at h
        exact absurd h (by simp)
      · simp [modifyOutputForMultipleTestCases, hcb, h]
  · intro env outputFilename message s h
    simp [applyGeneratedOutput, h]

/-- Closed instance of C3: with first-output-prefix `"First #"` and
steady-state prefix `"Case #"`, an output starting with `"First #"` passes
with the cursor after it, and a mismatching output fails naming
`"Case #"`. -/
theorem c3_witness :
    framedConfig.multipleTestCasesCounter = true
    ∧ framedConfig.multipleTestCasesFirstOutputPrefix = some "First #"
    ∧ framedConfig.multipleTestCasesOutputPrefix = some "Case #"
    ∧ modifyOutputForMultipleTestCases "First #42\n" framedConfig = FramingResult.ok "42\n"
    ∧ modifyOutputForMultipleTestCases "wrong\n" framedConfig
        = FramingResult.mismatchFailure "Output must start with \"Case #\"" := by
  refine ⟨rfl, rfl, rfl, ?_, by decide⟩
  exact (c3_output_framing_validation Nat framedConfig "First #" "Case #" rfl rfl rfl).2.1
    "First #42\n" ("42\n" : String).data (by decide)

/-- C4 (counterexample): the boundary logs the test-case-failed result
BEFORE invoking the deferred reporting action, not after it. On the
always-invalid Verifier the final log places the failed-result event
before the verification-failure detail event, so the claimed order
(action first, then the failed-result log) is false. -/
theorem c4_counterexample :
    (generate invalidVerifyEnv sampleCase witnessConfig witnessState).2.log
      = [LogEvent.testCaseIntroduction "sample_1",
         LogEvent.testCaseFailedResult "sample 1",
         LogEvent.constraintsVerificationFailure { isValid := false, detail := "violated" }]
    ∧ (generate invalidVerifyEnv sampleCase witnessConfig witnessState).2.log
      ≠ [LogEvent.testCaseIntroduction "sample_1",
         LogEvent.constraintsVerificationFailure { isValid := false, detail := "violated" },
         LogEvent.testCaseFailedResult "sample 1"] := by
  constructor <;> decide

/-- C4 (amended): for every domain failure, the `generate` boundary first
logs the test-case-failed result, then invokes the failure signal's
deferred reporting action exactly once, then returns failure. -/
theorem c4_domain_failure_boundary (env : Collaborators σ) (testCase : TestCase σ)
    (config : GeneratorConfig) (s s1 : SysState σ) (cb : List LogEvent)
    (h : runPipeline env testCase (inputFilenameOf config testCase)
        (outputFilenameOf config testCase) config
        { s with log := s.log ++ [LogEvent.testCaseIntroduction testCase.name] }
        = (s1, some (GenFailure.generationException cb))) :
    generate env testCase config s =
      (false, { s1 with log :=
          s1.log ++ [LogEvent.testCaseFailedResult testCase.description] ++ cb }) := by
  simp only [generate, h]

/-- Closed instance of the amended C4: on the always-invalid Verifier the
boundary appends the failed-result event and then the deferred
verification-failure event, once each. -/
theorem c4_witness :
    generate invalidVerifyEnv sampleCase witnessConfig witnessState
      = (false,
         { fs := [],
           log := [LogEvent.testCaseIntroduction "sample_1",
             LogEvent.testCaseFailedResult "sample 1",
             LogEvent.constraintsVerificationFailure { isValid := false, detail := "violated" }],
           spec := 3, evaluatorCalls := [] }) :=
  c4_domain_failure_boundary invalidVerifyEnv sampleCase witnessConfig witnessState
    { fs := [], log := [LogEvent.testCaseIntroduction "sample_1"], spec := 3,
      evaluatorCalls := [] }
    [LogEvent.constraintsVerificationFailure { isValid := false, detail := "violated" }] rfl

/-- The boundary of `generate` never touches the file system: the final
files are exactly the pipeline's. -/
theorem generate_fs (env : Collaborators σ) (testCase : TestCase σ)
    (config : GeneratorConfig) (s : SysState σ) :
    (generate env testCase config s).2.fs
      = (runPipeline env testCase (inputFilenameOf config testCase)
          (outputFilenameOf config testCase) config
          { s with log := s.log ++ [LogEvent.testCaseIntroduction testCase.name] }).1.fs := by
  simp only [generate]
  cases hp : runPipeline env testCase (inputFilenameOf config testCase)
      (outputFilenameOf config testCase) config
      { s with log := s.log ++ [LogEvent.testCaseIntroduction testCase.name] } with
  | mk s1 f =>
    cases f with
    | none => rfl
    | some e =>
      cases e with
      | generationException cb => rfl
      | runtimeError m => rfl

/-- The final log of `generate`: the prior log, the intro event, then the
tail determined by the pipeline's outcome. -/
theorem generate_log (env : Collaborators σ) (testCase : TestCase σ)
    (config : GeneratorConfig) (s : SysState σ) :
    (generate env testCase config s).2.log
      = s.log ++ LogEvent.testCaseIntroduction testCase.name
          :: boundaryTail testCase.description
             (runPipeline env testCase (inputFilenameOf config testCase)
               (outputFilenameOf config testCase) config
               { s with log := s.log ++ [LogEvent.testCaseIntroduction testCase.name] }).2 := by
  simp only [generate]
  split
  · rename_i s1 cb heq
    have hl := congrArg (fun r : SysState σ × Option GenFailure => r.1.log) heq
    dsimp only at hl
    rw [runPipeline_log] at hl
    rw [heq]
    simp only [boundaryTail]
    rw [← hl]
    simp
  · rename_i s1 m heq
    have hl := congrArg (fun r : SysState σ × Option GenFailure => r.1.log) heq
    dsimp only at hl
    rw [runPipeline_log] at hl
    rw [heq]
    simp only [boundaryTail]
    rw [← hl]
    simp
  · rename_i s1 heq
    have hl := congrArg (fun r : SysState σ × Option GenFailure => r.1.log) heq
    dsimp only at hl
    rw [runPipeline_log] at hl
    rw [heq]
    simp only [boundaryTail]
    rw [← hl]
    simp

/-- `generate` returns true exactly when the pipeline raised no failure. -/
theorem generate_result (env : Collaborators σ) (testCase : TestCase σ)
    (config : GeneratorConfig) (s : SysState σ) :
    (generate env testCase config s).1
      = (runPipeline env testCase (inputFilenameOf config testCase)
          (outputFilenameOf config testCase) config
          { s with log := s.log ++ [LogEvent.testCaseIntroduction testCase.name] }).2.isNone := by
  simp only [generate]
  split
  · rename_i s1 cb heq
    rw [heq]
    rfl
  · rename_i s1 m heq
    rw [heq]
    rfl
  · rename_i s1 heq
    rw [heq]
    rfl

/-- C8: every `generate` call appends exactly one test-case-intro event,
positioned before everything else it logs, and exactly one result event:
one successful-result event when it returns true, one failed-result event
when it returns false. No failure escapes the boundary: `generate` is a
total function into a boolean and a final state. -/
theorem c8_log_discipline (env : Collaborators σ) (testCase : TestCase σ)
    (config : GeneratorConfig) (s : SysState σ) :
    ∃ t : List LogEvent,
      (generate env testCase config s).2.log
        = s.log ++ LogEvent.testCaseIntroduction testCase.name :: t
      ∧ t.countP isIntroEvent = 0
      ∧ t.countP isSuccessEvent = (if (generate env testCase config s).1 then 1 else 0)
      ∧ t.countP isFailedEvent = (if (generate env testCase config s).1 then 0 else 1) := by
  rw [generate_log, generate_result]
  cases hf : (runPipeline env testCase (inputFilenameOf config testCase)
      (outputFilenameOf config testCase) config
      { s with log := s.log ++ [LogEvent.testCaseIntroduction testCase.name] }).2 with
  | none => exact ⟨[LogEvent.testCaseSuccessfulResult], rfl, by decide, by decide, by decide⟩
  | some e =>
    cases e with
    | generationException cb =>
      obtain ⟨h1, h2, h3⟩ := runPipeline_exception_events env testCase
        (inputFilenameOf config testCase) (outputFilenameOf config testCase) config
        { s with log := s.log ++ [LogEvent.testCaseIntroduction testCase.name] } cb hf
      refine ⟨boundaryTail testCase.description (some (GenFailure.generationException cb)),
        rfl, ?_, ?_, ?_⟩
      · simp [boundaryTail, List.countP_cons, h1, isIntroEvent]
      · simp [boundaryTail, List.countP_cons, h3, isSuccessEvent]
      · simp [boundaryTail, List.countP_cons, h2, isFailedEvent]
    | runtimeError m =>
      refine ⟨boundaryTail testCase.description (some (GenFailure.runtimeError m)),
        rfl, ?_, ?_, ?_⟩ <;>
        simp [boundaryTail, List.countP_cons, isIntroEvent, isSuccessEvent, isFailedEvent]

/-- Closed instance of C8 on a successful run: one intro first, then one
successful-result event. -/
theorem c8_witness :
    ∃ t : List LogEvent,
      (generate acceptingEnv officialCase witnessConfig witnessState).2.log
        = witnessState.log ++ LogEvent.testCaseIntroduction officialCase.name :: t
      ∧ t.countP isIntroEvent = 0
      ∧ t.countP isSuccessEvent
          = (if (generate acceptingEnv officialCase witnessConfig witnessState).1 then 1 else 0)
      ∧ t.countP isFailedEvent
          = (if (generate acceptingEnv officialCase witnessConfig witnessState).1 then 0 else 1) :=
  c8_log_discipline acceptingEnv officialCase witnessConfig witnessState

/-- C7: whenever the pipeline reaches `generateInput` (the constraints
verify), the generated `.in` file starts with the counter line `1` exactly
when `multipleTestCasesCounter` is configured — followed by the raw sample
input text for a Sample case, or by the serialized spec state for an
Official case — and carries no counter line otherwise. -/
theorem c7_counter_line (env : Collaborators σ) (testCase : TestCase σ)
    (config : GeneratorConfig) (s : SysState σ)
    (hvalid : (env.verifyConstraints testCase.subtaskIds).isValid = true) :
    (∀ inp out, testCase.data = TestCaseData.sample inp out →
      (generate env testCase config s).2.fs.read (inputFilenameOf config testCase)
        = some (modifyInputForMultipleTestCases config ++ inp))
    ∧ (∀ closure, testCase.data = TestCaseData.official closure →
      (generate env testCase config s).2.fs.read (inputFilenameOf config testCase)
        = some (modifyInputForMultipleTestCases config
            ++ env.printInput (closure s.spec)))
    ∧ modifyInputForMultipleTestCases config
        = (if config.multipleTestCasesCounter then "1\n" else "") := by
  have hv : verifyInput env testCase = none := by simp [verifyInput, hvalid]
  have hread : (generate env testCase config s).2.fs.read (inputFilenameOf config testCase)
      = some (modifyInputForMultipleTestCases config
          ++ (match testCase.data with
              | TestCaseData.sample i _ => i
              | TestCaseData.official _ =>
                  env.printInput (appliedSpec env testCase.data s.spec))) := by
    rw [generate_fs]
    simp only [runPipeline, hv]
    rw [generateAndApplyOutput_fs_read (inputFilenameOf_ne_outputFilenameOf config testCase)
      (inputFilenameOf_ne_eval config testCase)]
    simp [generateInput, applyInput, FileSystem.read_write_self]
  refine ⟨?_, ?_, ?_⟩
  · intro inp out hd
    rw [hread]
    simp [hd]
  · intro closure hd
    rw [hread]
    simp [hd, appliedSpec]
  · cases hcb : config.multipleTestCasesCounter
    · simp [modifyInputForMultipleTestCases, hcb]
    · simp [modifyInputForMultipleTestCases, hcb]
      rfl

/-- Closed instance of C7: with the counter configured, the `.in` file of
the sample case holds the counter line `1` and then the raw sample
input. -/
theorem c7_witness :
    (acceptingEnv.verifyConstraints sampleCase.subtaskIds).isValid = true
    ∧ (generate acceptingEnv sampleCase framedConfig witnessState).2.fs.read
        (inputFilenameOf framedConfig sampleCase) = some ("1\n" ++ "3\n") :=
  ⟨rfl, (c7_counter_line acceptingEnv sampleCase framedConfig witnessState rfl).1
    "3\n" (some "7\n") rfl⟩

/-- Full characterization of a run whose declared sample output fails the
consistency check: valid constraints, `needsOutput` on, a successful
solution run, and a non-Accepted verdict on the adjusted sample output. -/
theorem generate_sampleMismatch {σ : Type} {env : Collaborators σ} {testCase : TestCase σ}
    {config : GeneratorConfig} {s : SysState σ} {inp sout : String}
    (hdata : testCase.data = TestCaseData.sample inp (some sout))
    (hvalid : (env.verifyConstraints testCase.subtaskIds).isValid = true)
    (hneeds : config.needsOutput = true)
    (hexec : (env.evalGenerate config.solutionCommand
        (modifyInputForMultipleTestCases config ++ inp)).1.executionResult.isSuccessful = true)
    (hbad : ¬ ((env.evalScore (modifyInputForMultipleTestCases config ++ inp)
        (env.evalGenerate config.solutionCommand
          (modifyInputForMultipleTestCases config ++ inp)).2
        (modifySampleOutputStringForMultipleTestCases sout config)).verdict.status
        = VerdictStatus.ac)) :
    (generate env testCase config s).1 = false
    ∧ (generate env testCase config s).2.fs
        = ((s.fs.write (inputFilenameOf config testCase)
              (modifyInputForMultipleTestCases config ++ inp)).write
            (outputFilenameOf config testCase)
            (env.evalGenerate config.solutionCommand
              (modifyInputForMultipleTestCases config ++ inp)).2).write
          EVALUATION_OUT_FILENAME
          (modifySampleOutputStringForMultipleTestCases sout config)
    ∧ (generate env testCase config s).2.log
        = s.log ++ [LogEvent.testCaseIntroduction testCase.name,
            LogEvent.testCaseFailedResult testCase.description,
            LogEvent.sampleTestCaseCheckFailure,
            LogEvent.executionResults [("scorer",
              (env.evalScore (modifyInputForMultipleTestCases config ++ inp)
                (env.evalGenerate config.solutionCommand
                  (modifyInputForMultipleTestCases config ++ inp)).2
                (modifySampleOutputStringForMultipleTestCases sout config)).executionResult)]]
    ∧ (generate env testCase config s).2.evaluatorCalls
        = s.evaluatorCalls
            ++ [EvaluatorCall.generate (inputFilenameOf config testCase)
                  (outputFilenameOf config testCase),
                EvaluatorCall.score (inputFilenameOf config testCase)
                  (outputFilenameOf config testCase)]
    ∧ (generate env testCase config s).2.spec = env.parseInput inp s.spec := by
  have hio : outputFilenameOf config testCase ≠ inputFilenameOf config testCase :=
    Ne.symm (inputFilenameOf_ne_outputFilenameOf config testCase)
  have hei : EVALUATION_OUT_FILENAME ≠ inputFilenameOf config testCase :=
    Ne.symm (inputFilenameOf_ne_eval config testCase)
  have heo : EVALUATION_OUT_FILENAME ≠ outputFilenameOf config testCase :=
    Ne.symm (outputFilenameOf_ne_eval config testCase)
  refine ⟨?_, ?_, ?_, ?_, ?_⟩ <;>
    simp [generate, runPipeline, applyInput, appliedSpec, verifyInput, generateInput,
      generateAndApplyOutput, checkSampleOutput, getSampleOutputString,
      FileSystem.read_write, hdata, hvalid, hneeds, hexec, hbad, hio, hei, heo]

/-- C5: for a Sample test case with a declared output and `needsOutput`
on, the sample consistency check adjusts a copy of the declared text —
prepending the first-output-prefix exactly when the counter and a
first-output-prefix are configured — writes the adjusted copy to the fixed
scratch evaluation-output path, and invokes the Evaluator's scoring
operation over the input and output paths; on a non-Accepted verdict,
`generate` fails with a signal logging the sample-mismatch message plus
the scorer's execution result tagged `"scorer"`. -/
theorem c5_sample_consistency_check (env : Collaborators σ) (testCase : TestCase σ)
    (config : GeneratorConfig) (s : SysState σ) (inp sout : String)
    (hdata : testCase.data = TestCaseData.sample inp (some sout))
    (hvalid : (env.verifyConstraints testCase.subtaskIds).isValid = true)
    (hneeds : config.needsOutput = true)
    (hexec : (env.evalGenerate config.solutionCommand
        (modifyInputForMultipleTestCases config ++ inp)).1.executionResult.isSuccessful = true)
    (hbad : ¬ ((env.evalScore (modifyInputForMultipleTestCases config ++ inp)
        (env.evalGenerate config.solutionCommand
          (modifyInputForMultipleTestCases config ++ inp)).2
        (modifySampleOutputStringForMultipleTestCases sout config)).verdict.status
        = VerdictStatus.ac)) :
    (∀ (str fp : String) (config2 : GeneratorConfig),
        config2.multipleTestCasesCounter = true →
        config2.multipleTestCasesFirstOutputPrefix = some fp →
        modifySampleOutputStringForMultipleTestCases str config2 = fp ++ str)
    ∧ (∀ (str : String) (config2 : GeneratorConfig),
        config2.multipleTestCasesCounter = false
          ∨ config2.multipleTestCasesFirstOutputPrefix = none →
        modifySampleOutputStringForMultipleTestCases str config2 = str)
    ∧ (generate env testCase config s).1 = false
    ∧ (generate env testCase config s).2.fs.read EVALUATION_OUT_FILENAME
        = some (modifySampleOutputStringForMultipleTestCases sout config)
    ∧ (generate env testCase config s).2.evaluatorCalls
        = s.evaluatorCalls
            ++ [EvaluatorCall.generate (inputFilenameOf config testCase)
                  (outputFilenameOf config testCase),
                EvaluatorCall.score (inputFilenameOf config testCase)
                  (outputFilenameOf config testCase)]
    ∧ (generate env testCase config s).2.log
        = s.log ++ [LogEvent.testCaseIntroduction testCase.name,
            LogEvent.testCaseFailedResult testCase.description,
            LogEvent.sampleTestCaseCheckFailure,
            LogEvent.executionResults [("scorer",
              (env.evalScore (modifyInputForMultipleTestCases config ++ inp)
                (env.evalGenerate config.solutionCommand
                  (modifyInputForMultipleTestCases config ++ inp)).2
                (modifySampleOutputStringForMultipleTestCases sout config)).executionResult)]] := by
  obtain ⟨h1, h2, h3, h4, h5⟩ := generate_sampleMismatch hdata hvalid hneeds hexec hbad
  refine ⟨?_, ?_, h1, ?_, h4, h3⟩
  · intro str fp config2 hcb hfp
    simp [modifySampleOutputStringForMultipleTestCases, hcb, hfp]
  · intro str config2 hor
    cases hcb : config2.multipleTestCasesCounter with
    | false => simp [modifySampleOutputStringForMultipleTestCases, hcb]
    | true =>
      rcases hor with h | h
      · rw [hcb] at h
        exact absurd h (by simp)
      · simp [modifySampleOutputStringForMultipleTestCases, hcb, h]
  · rw [h2]
    exact FileSystem.read_write_self _ _ _

/-- Closed instance of C5: with the always-rejecting checker, `generate`
fails, the scratch file holds the declared sample output, the Evaluator
was invoked to generate and then to score over the case's paths, and the
log carries the sample-mismatch message plus the scorer's result. -/
theorem c5_witness :
    (generate rejectingScoreEnv sampleCase witnessConfig witnessState).1 = false
    ∧ (generate rejectingScoreEnv sampleCase witnessConfig witnessState).2.fs.read
        EVALUATION_OUT_FILENAME = some "7\n"
    ∧ (generate rejectingScoreEnv sampleCase witnessConfig witnessState).2.evaluatorCalls
        = [EvaluatorCall.generate (inputFilenameOf witnessConfig sampleCase)
             (outputFilenameOf witnessConfig sampleCase),
           EvaluatorCall.score (inputFilenameOf witnessConfig sampleCase)
             (outputFilenameOf witnessConfig sampleCase)]
    ∧ (generate rejectingScoreEnv sampleCase witnessConfig witnessState).2.log
        = [LogEvent.testCaseIntroduction "sample_1",
           LogEvent.testCaseFailedResult "sample 1",
           LogEvent.sampleTestCaseCheckFailure,
           LogEvent.executionResults [("scorer",
             { isSuccessful := true, detail := "scorer detail" })]] := by
  have h := c5_sample_consistency_check rejectingScoreEnv sampleCase witnessConfig
    witnessState "3\n" "7\n" rfl rfl rfl rfl (by decide)
  exact ⟨h.2.2.1, h.2.2.2.1, h.2.2.2.2.1, h.2.2.2.2.2⟩

/-- C6: when the sample consistency check fails, `generate` returns
failure but the persisted `.out` file still holds the reference solution's
actual output, written by the Evaluator's generation step before the check
ran; the check wrote only the scratch evaluation-output file. -/
theorem c6_out_file_keeps_solution_output (env : Collaborators σ) (testCase : TestCase σ)
    (config : GeneratorConfig) (s : SysState σ) (inp sout : String)
    (hdata : testCase.data = TestCaseData.sample inp (some sout))
    (hvalid : (env.verifyConstraints testCase.subtaskIds).isValid = true)
    (hneeds : config.needsOutput = true)
    (hexec : (env.evalGenerate config.solutionCommand
        (modifyInputForMultipleTestCases config ++ inp)).1.executionResult.isSuccessful = true)
    (hbad : ¬ ((env.evalScore (modifyInputForMultipleTestCases config ++ inp)
        (env.evalGenerate config.solutionCommand
          (modifyInputForMultipleTestCases config ++ inp)).2
        (modifySampleOutputStringForMultipleTestCases sout config)).verdict.status
        = VerdictStatus.ac)) :
    (generate env testCase config s).1 = false
    ∧ (generate env testCase config s).2.fs.read (outputFilenameOf config testCase)
        = some ((env.evalGenerate config.solutionCommand
            (modifyInputForMultipleTestCases config ++ inp)).2)
    ∧ (generate env testCase config s).2.fs.read EVALUATION_OUT_FILENAME
        = some (modifySampleOutputStringForMultipleTestCases sout config) := by
  obtain ⟨h1, h2, h3, h4, h5⟩ := generate_sampleMismatch hdata hvalid hneeds hexec hbad
  refine ⟨h1, ?_, ?_⟩
  · rw [h2]
    rw [FileSystem.read_write_ne _ _ _ _ (Ne.symm (outputFilenameOf_ne_eval config testCase))]
    exact FileSystem.read_write_self _ _ _
  · rw [h2]
    exact FileSystem.read_write_self _ _ _

/-- Closed instance of C6: the declared sample output `"7\n"` disagrees
with the solution's `"6\n"` under the rejecting checker; `generate` fails
while `.out` still holds `"6\n"` and only the scratch file holds `"7\n"`. -/
theorem c6_witness :
    (generate rejectingScoreEnv sampleCase witnessConfig witnessState).1 = false
    ∧ (generate rejectingScoreEnv sampleCase witnessConfig witnessState).2.fs.read
        (outputFilenameOf witnessConfig sampleCase) = some "6\n"
    ∧ (generate rejectingScoreEnv sampleCase witnessConfig witnessState).2.fs.read
        EVALUATION_OUT_FILENAME = some "7\n" :=
  c6_out_file_keeps_solution_output rejectingScoreEnv sampleCase witnessConfig
    witnessState "3\n" "7\n" rfl rfl rfl rfl (by decide)

/-- Two pipeline runs from states whose applied spec values agree perform
the same writes in the same order, record the same evaluator calls, reach
the same final spec value, and raise the same failure: the pipeline never
reads a file it did not just write during the same call. -/
theorem runPipeline_pair (env : Collaborators σ) (testCase : TestCase σ)
    (config : GeneratorConfig)
    (hdet : ∀ a b : σ, appliedSpec env testCase.data a = appliedSpec env testCase.data b)
    (s t : SysState σ) :
    ∃ (ws : FileSystem) (p : σ) (c : List EvaluatorCall) (f : Option GenFailure),
      runPipeline env testCase (inputFilenameOf config testCase)
          (outputFilenameOf config testCase) config s
        = ({ fs := ws ++ s.fs, log := s.log, spec := p,
             evaluatorCalls := s.evaluatorCalls ++ c }, f)
      ∧ runPipeline env testCase (inputFilenameOf config testCase)
          (outputFilenameOf config testCase) config t
        = ({ fs := ws ++ t.fs, log := t.log, spec := p,
             evaluatorCalls := t.evaluatorCalls ++ c }, f) := by
  have hb := hdet t.spec s.spec
  have hio : outputFilenameOf config testCase ≠ inputFilenameOf config testCase :=
    Ne.symm (inputFilenameOf_ne_outputFilenameOf config testCase)
  have hei : EVALUATION_OUT_FILENAME ≠ inputFilenameOf config testCase :=
    Ne.symm (inputFilenameOf_ne_eval config testCase)
  have heo : EVALUATION_OUT_FILENAME ≠ outputFilenameOf config testCase :=
    Ne.symm (outputFilenameOf_ne_eval config testCase)
  by_cases hv : (env.verifyConstraints testCase.subtaskIds).isValid = true
  · cases hdata : testCase.data with
    | sample inp outOpt =>
      simp only [hdata, appliedSpec] at hb
      by_cases hno : config.needsOutput = false
      · cases outOpt with
        | some sout =>
          refine ⟨[(inputFilenameOf config testCase,
              modifyInputForMultipleTestCases config ++ inp)],
            env.parseInput inp s.spec, [],
            some (GenFailure.generationException
              [LogEvent.sampleTestCaseNoOutputNeededFailure]), ?_, ?_⟩ <;>
            simp [FileSystem.write, FileSystem.read_cons, runPipeline, verifyInput, applyInput, appliedSpec, generateInput,
              generateAndApplyOutput, getSampleOutputString, hv, hdata, hno, hb]
        | none =>
          refine ⟨[(inputFilenameOf config testCase,
              modifyInputForMultipleTestCases config ++ inp)],
            env.parseInput inp s.spec, [], none, ?_, ?_⟩ <;>
            simp [FileSystem.write, FileSystem.read_cons, runPipeline, verifyInput, applyInput, appliedSpec, generateInput,
              generateAndApplyOutput, getSampleOutputString, hv, hdata, hno, hb]
      · have hno' : config.needsOutput = true := by simpa using hno
        cases hexec : (env.evalGenerate config.solutionCommand
            (modifyInputForMultipleTestCases config ++ inp)).1.executionResult.isSuccessful with
        | false =>
          refine ⟨[(outputFilenameOf config testCase,
              (env.evalGenerate config.solutionCommand
                (modifyInputForMultipleTestCases config ++ inp)).2),
             (inputFilenameOf config testCase,
              modifyInputForMultipleTestCases config ++ inp)],
            env.parseInput inp s.spec,
            [EvaluatorCall.generate (inputFilenameOf config testCase)
              (outputFilenameOf config testCase)],
            some (GenFailure.generationException
              [LogEvent.executionResults [("solution",
                (env.evalGenerate config.solutionCommand
                  (modifyInputForMultipleTestCases config ++ inp)).1.executionResult)]]),
            ?_, ?_⟩ <;>
            simp [FileSystem.write, FileSystem.read_cons, runPipeline, verifyInput, applyInput, appliedSpec, generateInput,
              generateAndApplyOutput, getSampleOutputString, FileSystem.read_write,
              hv, hdata, hno', hexec, hb, hio, hei, heo]
        | true =>
          cases outOpt with
          | some sout =>
            by_cases hac : (env.evalScore (modifyInputForMultipleTestCases config ++ inp)
                (env.evalGenerate config.solutionCommand
                  (modifyInputForMultipleTestCases config ++ inp)).2
                (modifySampleOutputStringForMultipleTestCases sout config)).verdict.status
                = VerdictStatus.ac
            · cases hframe : modifyOutputForMultipleTestCases
                  (env.evalGenerate config.solutionCommand
                    (modifyInputForMultipleTestCases config ++ inp)).2 config with
              | ok rem =>
                refine ⟨[(EVALUATION_OUT_FILENAME,
                    modifySampleOutputStringForMultipleTestCases sout config),
                   (outputFilenameOf config testCase,
                    (env.evalGenerate config.solutionCommand
                      (modifyInputForMultipleTestCases config ++ inp)).2),
                   (inputFilenameOf config testCase,
                    modifyInputForMultipleTestCases config ++ inp)],
                  env.parseOutput rem (env.parseInput inp s.spec),
                  [EvaluatorCall.generate (inputFilenameOf config testCase)
                     (outputFilenameOf config testCase),
                   EvaluatorCall.score (inputFilenameOf config testCase)
                     (outputFilenameOf config testCase)],
                  none, ?_, ?_⟩ <;>
                  simp [FileSystem.write, FileSystem.read_cons, runPipeline, verifyInput, applyInput, appliedSpec, generateInput,
                    generateAndApplyOutput, checkSampleOutput, applyGeneratedOutput,
                    getSampleOutputString, FileSystem.read_write,
                    hv, hdata, hno', hexec, hac, hframe, hb, hio, hei, heo]
              | absentSteadyFailure =>
                refine ⟨[(EVALUATION_OUT_FILENAME,
                    modifySampleOutputStringForMultipleTestCases sout config),
                   (outputFilenameOf config testCase,
                    (env.evalGenerate config.solutionCommand
                      (modifyInputForMultipleTestCases config ++ inp)).2),
                   (inputFilenameOf config testCase,
                    modifyInputForMultipleTestCases config ++ inp)],
                  env.parseInput inp s.spec,
                  [EvaluatorCall.generate (inputFilenameOf config testCase)
                     (outputFilenameOf config testCase),
                   EvaluatorCall.score (inputFilenameOf config testCase)
                     (outputFilenameOf config testCase)],
                  some (GenFailure.runtimeError absentSteadyMessage), ?_, ?_⟩ <;>
                  simp [FileSystem.write, FileSystem.read_cons, runPipeline, verifyInput, applyInput, appliedSpec, generateInput,
                    generateAndApplyOutput, checkSampleOutput, applyGeneratedOutput,
                    getSampleOutputString, FileSystem.read_write,
                    hv, hdata, hno', hexec, hac, hframe, hb, hio, hei, heo]
              | mismatchFailure m =>
                refine ⟨[(EVALUATION_OUT_FILENAME,
                    modifySampleOutputStringForMultipleTestCases sout config),
                   (outputFilenameOf config testCase,
                    (env.evalGenerate config.solutionCommand
                      (modifyInputForMultipleTestCases config ++ inp)).2),
                   (inputFilenameOf config testCase,
                    modifyInputForMultipleTestCases config ++ inp)],
                  env.parseInput inp s.spec,
                  [EvaluatorCall.generate (inputFilenameOf config testCase)
                     (outputFilenameOf config testCase),
                   EvaluatorCall.score (inputFilenameOf config testCase)
                     (outputFilenameOf config testCase)],
                  some (GenFailure.runtimeError m), ?_, ?_⟩ <;>
                  simp [FileSystem.write, FileSystem.read_cons, runPipeline, verifyInput, applyInput, appliedSpec, generateInput,
                    generateAndApplyOutput, checkSampleOutput, applyGeneratedOutput,
                    getSampleOutputString, FileSystem.read_write,
                    hv, hdata, hno', hexec, hac, hframe, hb, hio, hei, heo]
            · refine ⟨[(EVALUATION_OUT_FILENAME,
                  modifySampleOutputStringForMultipleTestCases sout config),
                 (outputFilenameOf config testCase,
                  (env.evalGenerate config.solutionCommand
                    (modifyInputForMultipleTestCases config ++ inp)).2),
                 (inputFilenameOf config testCase,
                  modifyInputForMultipleTestCases config ++ inp)],
                env.parseInput inp s.spec,
                [EvaluatorCall.generate (inputFilenameOf config testCase)
                   (outputFilenameOf config testCase),
                 EvaluatorCall.score (inputFilenameOf config testCase)
                   (outputFilenameOf config testCase)],
                some (GenFailure.generationException
                  [LogEvent.sampleTestCaseCheckFailure,
                   LogEvent.executionResults [("scorer",
                     (env.evalScore (modifyInputForMultipleTestCases config ++ inp)
                       (env.evalGenerate config.solutionCommand
                         (modifyInputForMultipleTestCases config ++ inp)).2
                       (modifySampleOutputStringForMultipleTestCases sout
                         config)).executionResult)]]), ?_, ?_⟩ <;>
                simp [FileSystem.write, FileSystem.read_cons, runPipeline, verifyInput, applyInput, appliedSpec, generateInput,
                  generateAndApplyOutput, checkSampleOutput, applyGeneratedOutput,
                  getSampleOutputString, FileSystem.read_write,
                  hv, hdata, hno', hexec, hac, hb, hio, hei, heo]
          | none =>
            cases hframe : modifyOutputForMultipleTestCases
                (env.evalGenerate config.solutionCommand
                  (modifyInputForMultipleTestCases config ++ inp)).2 config with
            | ok rem =>
              refine ⟨[(outputFilenameOf config testCase,
                  (env.evalGenerate config.solutionCommand
                    (modifyInputForMultipleTestCases config ++ inp)).2),
                 (inputFilenameOf config testCase,
                  modifyInputForMultipleTestCases config ++ inp)],
                env.parseOutput rem (env.parseInput inp s.spec),
                [EvaluatorCall.generate (inputFilenameOf config testCase)
                  (outputFilenameOf config testCase)],
                none, ?_, ?_⟩ <;>
                simp [FileSystem.write, FileSystem.read_cons, runPipeline, verifyInput, applyInput, appliedSpec, generateInput,
                  generateAndApplyOutput, applyGeneratedOutput, getSampleOutputString,
                  FileSystem.read_write, hv, hdata, hno', hexec, hframe, hb, hio, hei, heo]
            | absentSteadyFailure =>
              refine ⟨[(outputFilenameOf config testCase,
                  (env.evalGenerate config.solutionCommand
                    (modifyInputForMultipleTestCases config ++ inp)).2),
                 (inputFilenameOf config testCase,
                  modifyInputForMultipleTestCases config ++ inp)],
                env.parseInput inp s.spec,
                [EvaluatorCall.generate (inputFilenameOf config testCase)
                  (outputFilenameOf config testCase)],
                some (GenFailure.runtimeError absentSteadyMessage), ?_, ?_⟩ <;>
                simp [FileSystem.write, FileSystem.read_cons, runPipeline, verifyInput, applyInput, appliedSpec, generateInput,
                  generateAndApplyOutput, applyGeneratedOutput, getSampleOutputString,
                  FileSystem.read_write, hv, hdata, hno', hexec, hframe, hb, hio, hei, heo]
            | mismatchFailure m =>
              refine ⟨[(outputFilenameOf config testCase,
                  (env.evalGenerate config.solutionCommand
                    (modifyInputForMultipleTestCases config ++ inp)).2),
                 (inputFilenameOf config testCase,
                  modifyInputForMultipleTestCases config ++ inp)],
                env.parseInput inp s.spec,
                [EvaluatorCall.generate (inputFilenameOf config testCase)
                  (outputFilenameOf config testCase)],
                some (GenFailure.runtimeError m), ?_, ?_⟩ <;>
                simp [FileSystem.write, FileSystem.read_cons, runPipeline, verifyInput, applyInput, appliedSpec, generateInput,
                  generateAndApplyOutput, applyGeneratedOutput, getSampleOutputString,
                  FileSystem.read_write, hv, hdata, hno', hexec, hframe, hb, hio, hei, heo]
    | official closure =>
      simp only [hdata, appliedSpec] at hb
      by_cases hno : config.needsOutput = false
      · refine ⟨[(inputFilenameOf config testCase,
            modifyInputForMultipleTestCases config ++ env.printInput (closure s.spec))],
          closure s.spec, [], none, ?_, ?_⟩ <;>
          simp [FileSystem.write, FileSystem.read_cons, runPipeline, verifyInput, applyInput, appliedSpec, generateInput,
            generateAndApplyOutput, getSampleOutputString, hv, hdata, hno, hb]
      · have hno' : config.needsOutput = true := by simpa using hno
        cases hexec : (env.evalGenerate config.solutionCommand
            (modifyInputForMultipleTestCases config
              ++ env.printInput (closure s.spec))).1.executionResult.isSuccessful with
        | false =>
          refine ⟨[(outputFilenameOf config testCase,
              (env.evalGenerate config.solutionCommand
                (modifyInputForMultipleTestCases config
                  ++ env.printInput (closure s.spec))).2),
             (inputFilenameOf config testCase,
              modifyInputForMultipleTestCases config ++ env.printInput (closure s.spec))],
            closure s.spec,
            [EvaluatorCall.generate (inputFilenameOf config testCase)
              (outputFilenameOf config testCase)],
            some (GenFailure.generationException
              [LogEvent.executionResults [("solution",
                (env.evalGenerate config.solutionCommand
                  (modifyInputForMultipleTestCases config
                    ++ env.printInput (closure s.spec))).1.executionResult)]]),
            ?_, ?_⟩ <;>
            simp [FileSystem.write, FileSystem.read_cons, runPipeline, verifyInput, applyInput, appliedSpec, generateInput,
              generateAndApplyOutput, getSampleOutputString, FileSystem.read_write,
              hv, hdata, hno', hexec, hb, hio, hei, heo]
        | true =>
          cases hframe : modifyOutputForMultipleTestCases
              (env.evalGenerate config.solutionCommand
                (modifyInputForMultipleTestCases config
                  ++ env.printInput (closure s.spec))).2 config with
          | ok rem =>
            refine ⟨[(outputFilenameOf config testCase,
                (env.evalGenerate config.solutionCommand
                  (modifyInputForMultipleTestCases config
                    ++ env.printInput (closure s.spec))).2),
               (inputFilenameOf config testCase,
                modifyInputForMultipleTestCases config ++ env.printInput (closure s.spec))],
              env.parseOutput rem (closure s.spec),
              [EvaluatorCall.generate (inputFilenameOf config testCase)
                (outputFilenameOf config testCase)],
              none, ?_, ?_⟩ <;>
              simp [FileSystem.write, FileSystem.read_cons, runPipeline, verifyInput, applyInput, appliedSpec, generateInput,
                generateAndApplyOutput, applyGeneratedOutput, getSampleOutputString,
                FileSystem.read_write, hv, hdata, hno', hexec, hframe, hb, hio, hei, heo]
          | absentSteadyFailure =>
            refine ⟨[(outputFilenameOf config testCase,
                (env.evalGenerate config.solutionCommand
                  (modifyInputForMultipleTestCases config
                    ++ env.printInput (closure s.spec))).2),
               (inputFilenameOf config testCase,
                modifyInputForMultipleTestCases config ++ env.printInput (closure s.spec))],
              closure s.spec,
              [EvaluatorCall.generate (inputFilenameOf config testCase)
                (outputFilenameOf config testCase)],
              some (GenFailure.runtimeError absentSteadyMessage), ?_, ?_⟩ <;>
              simp [FileSystem.write, FileSystem.read_cons, runPipeline, verifyInput, applyInput, appliedSpec, generateInput,
                generateAndApplyOutput, applyGeneratedOutput, getSampleOutputString,
                FileSystem.read_write, hv, hdata, hno', hexec, hframe, hb, hio, hei, heo]
          | mismatchFailure m =>
            refine ⟨[(outputFilenameOf config testCase,
                (env.evalGenerate config.solutionCommand
                  (modifyInputForMultipleTestCases config
                    ++ env.printInput (closure s.spec))).2),
               (inputFilenameOf config testCase,
                modifyInputForMultipleTestCases config ++ env.printInput (closure s.spec))],
              closure s.spec,
              [EvaluatorCall.generate (inputFilenameOf config testCase)
                (outputFilenameOf config testCase)],
              some (GenFailure.runtimeError m), ?_, ?_⟩ <;>
              simp [FileSystem.write, FileSystem.read_cons, runPipeline, verifyInput, applyInput, appliedSpec, generateInput,
                generateAndApplyOutput, applyGeneratedOutput, getSampleOutputString,
                FileSystem.read_write, hv, hdata, hno', hexec, hframe, hb, hio, hei, heo]
  · have hv' : (env.verifyConstraints testCase.subtaskIds).isValid = false := by
      simpa using hv
    exact ⟨[], appliedSpec env testCase.data s.spec, [],
      some (GenFailure.generationException
        [LogEvent.constraintsVerificationFailure (env.verifyConstraints testCase.subtaskIds)]),
      by simp [runPipeline, verifyInput, hv', applyInput],
      by simp [runPipeline, verifyInput, hv', applyInput, hb]⟩

/-- Reading an appended file system consults the newer prefix first. -/
theorem FileSystem.read_append (a b : FileSystem) (q : String) :
    FileSystem.read (a ++ b) q = (FileSystem.read a q).or (FileSystem.read b q) := by
  induction a with
  | nil => simp [FileSystem.read]
  | cons e rest ih =>
    obtain ⟨p, c⟩ := e
    by_cases h : p = q
    · simp [FileSystem.read, h]
    · simp [FileSystem.read, h, ih]

/-- C9: `generate` is idempotent and deterministic given deterministic
collaborators: when the applied spec value does not depend on the prior
spec state (deterministic generation logic; the collaborators are pure
functions, hence deterministic), a second `generate` call with the same
test case and config, run from the state the first call left, returns the
same boolean and leaves every file — in particular the case's `.in` and
`.out` files — with byte-identical content. -/
theorem c9_generate_deterministic (env : Collaborators σ) (testCase : TestCase σ)
    (config : GeneratorConfig) (s : SysState σ)
    (hdet : ∀ a b : σ, appliedSpec env testCase.data a = appliedSpec env testCase.data b) :
    (generate env testCase config (generate env testCase config s).2).1
      = (generate env testCase config s).1
    ∧ (generate env testCase config (generate env testCase config s).2).2.fs.read
        (inputFilenameOf config testCase)
      = (generate env testCase config s).2.fs.read (inputFilenameOf config testCase)
    ∧ (generate env testCase config (generate env testCase config s).2).2.fs.read
        (outputFilenameOf config testCase)
      = (generate env testCase config s).2.fs.read (outputFilenameOf config testCase)
    ∧ ∀ q : String,
        (generate env testCase config (generate env testCase config s).2).2.fs.read q
          = (generate env testCase config s).2.fs.read q := by
  obtain ⟨ws, p, c, f, h1, h2⟩ := runPipeline_pair env testCase config hdet
    { s with log := s.log ++ [LogEvent.testCaseIntroduction testCase.name] }
    { (generate env testCase config s).2 with
      log := (generate env testCase config s).2.log
        ++ [LogEvent.testCaseIntroduction testCase.name] }
  have hfs1 : (generate env testCase config s).2.fs = ws ++ s.fs := by
    rw [generate_fs, h1]
  have hfs2 : (generate env testCase config (generate env testCase config s).2).2.fs
      = ws ++ (generate env testCase config s).2.fs := by
    rw [generate_fs, h2]
  have hbool : (generate env testCase config (generate env testCase config s).2).1
      = (generate env testCase config s).1 := by
    rw [generate_result, generate_result, h1, h2]
  have hq : ∀ q : String,
      (generate env testCase config (generate env testCase config s).2).2.fs.read q
        = (generate env testCase config s).2.fs.read q := by
    intro q
    rw [hfs2, hfs1, FileSystem.read_append, FileSystem.read_append]
    cases h : FileSystem.read ws q <;> simp [h]
  exact ⟨hbool, hq _, hq _, hq⟩

/-- Closed instance of C9: replaying `generate` on the official case from
the state the first call left reproduces the same boolean and the same
`.in` and `.out` contents. -/
theorem c9_witness :
    (generate acceptingEnv officialCase witnessConfig
        (generate acceptingEnv officialCase witnessConfig witnessState).2).1
      = (generate acceptingEnv officialCase witnessConfig witnessState).1
    ∧ (generate acceptingEnv officialCase witnessConfig
          (generate acceptingEnv officialCase witnessConfig witnessState).2).2.fs.read
        (inputFilenameOf witnessConfig officialCase)
      = (generate acceptingEnv officialCase witnessConfig witnessState).2.fs.read
        (inputFilenameOf witnessConfig officialCase)
    ∧ (generate acceptingEnv officialCase witnessConfig
          (generate acceptingEnv officialCase witnessConfig witnessState).2).2.fs.read
        (outputFilenameOf witnessConfig officialCase)
      = (generate acceptingEnv officialCase witnessConfig witnessState).2.fs.read
        (outputFilenameOf witnessConfig officialCase) := by
  have h := c9_generate_deterministic acceptingEnv officialCase witnessConfig witnessState
    (fun a b => rfl)
  exact ⟨h.1, h.2.1, h.2.2.1⟩

end Tcframe
